import Mathlib

/-
  Verification development for the IKEv2 message model of
  Source/charon/message.c (strongSwan, 2005 snapshot).

  The file shallowly embeds the message component: the static payload
  rule table, the payload chain bookkeeping (add_payload), message
  generation (generate), and the two-phase parse (parse_header,
  parse_body).  The byte-level generator and parser collaborators,
  the payload objects, the ike_sa_id, the packet and the host are not
  part of the shown repository slice; they are modelled from the
  external-interface section of the design document: the wire buffer
  is a list of serialized-payload tokens, the generator emits one
  token per payload, and the parser consumes one token per expected
  payload type.
-/

namespace Charon

/-- Status codes of the status_t enumeration (types.h collaborator)
    that message.c uses. -/
inductive Status where
  | SUCCESS
  | FAILED
  | OUT_OF_RES
  | INVALID_STATE
  | NOT_FOUND
  | NOT_SUPPORTED
  | PARSE_ERROR
  | VERIFY_ERROR
deriving DecidableEq

/-- Payload type tags (payloads/encodings.h collaborator): the types
    message.c mentions, plus the no-payload sentinel and the private
    header tag. -/
inductive PayloadType where
  | NO_PAYLOAD
  | SECURITY_ASSOCIATION
  | KEY_EXCHANGE
  | NONCE
  | HEADER
deriving DecidableEq

/-- Exchange types (types.h collaborator): the undefined sentinel,
    the one exchange present in the rule table, and further exchange
    types with no rule-table row. -/
inductive ExchangeType where
  | EXCHANGE_TYPE_UNDEFINED
  | IKE_SA_INIT
  | IKE_AUTH
  | CREATE_CHILD_SA
  | INFORMATIONAL
deriving DecidableEq

/-- Modelled from the spec: the IKE-SA-Id collaborator exposes the two
    SPIs and the initiator-role flag; clone is a deep copy. -/
structure IkeSaId where
  initiator_spi : Nat
  responder_spi : Nat
  is_initiator : Bool
deriving DecidableEq

/-- Modelled from the spec: clone of an ike_sa_id_t is a field-by-field
    deep copy producing an independent instance of equal value. -/
def ike_sa_id_clone (s : IkeSaId) : IkeSaId :=
  { initiator_spi := s.initiator_spi
    responder_spi := s.responder_spi
    is_initiator := s.is_initiator }

/-- Modelled from the spec: a payload object exposes its type tag, its
    next-type link (get/set), opaque body content, and a structural
    verification outcome. -/
structure Payload where
  ptype : PayloadType
  next_type : PayloadType
  body : Nat
  verify_ok : Bool
deriving DecidableEq

/-- Modelled from the spec: the fixed-size IKE header produced by
    ike_header_create and filled by generate; carries the SPIs, the
    generic next-payload link, versions, exchange type, the response
    and initiator flags, and the message id. -/
structure IkeHeader where
  initiator_spi : Nat
  responder_spi : Nat
  next_type : PayloadType
  maj_version : Nat
  min_version : Nat
  exchange_type : ExchangeType
  response_flag : Bool
  initiator_flag : Bool
  message_id : Nat
  verify_ok : Bool
deriving DecidableEq

/-- Modelled from the spec: one serialized unit of the wire buffer, as
    produced by generate_payload and consumed by parse_payload. -/
inductive Token where
  | header (h : IkeHeader)
  | payload (p : Payload)
deriving DecidableEq

/-- Modelled from the spec: a packet owns optional source and
    destination addresses (hosts, opaque here) and the raw data
    buffer; cloning is an independent value copy. -/
structure Packet where
  source : Option Nat
  destination : Option Nat
  data : List Token
deriving DecidableEq

/-- supported_payload_entry_t of message.c. -/
structure SupportedPayloadEntry where
  payload_type : PayloadType
  min_occurence : Nat
  max_occurence : Nat
deriving DecidableEq

/-- message_rule_t of message.c. -/
structure MessageRule where
  exchange_type : ExchangeType
  is_request : Bool
  supported_payloads : List SupportedPayloadEntry
deriving DecidableEq

/-- supported_ike_sa_init_i_payloads of message.c. -/
def supported_ike_sa_init_i_payloads : List SupportedPayloadEntry :=
  [ { payload_type := PayloadType.SECURITY_ASSOCIATION, min_occurence := 1, max_occurence := 1 }
  , { payload_type := PayloadType.KEY_EXCHANGE, min_occurence := 1, max_occurence := 1 }
  , { payload_type := PayloadType.NONCE, min_occurence := 1, max_occurence := 1 } ]

/-- supported_ike_sa_init_r_payloads of message.c. -/
def supported_ike_sa_init_r_payloads : List SupportedPayloadEntry :=
  [ { payload_type := PayloadType.SECURITY_ASSOCIATION, min_occurence := 1, max_occurence := 1 }
  , { payload_type := PayloadType.KEY_EXCHANGE, min_occurence := 1, max_occurence := 1 }
  , { payload_type := PayloadType.NONCE, min_occurence := 1, max_occurence := 1 } ]

/-- message_rules of message.c: the static rule table. -/
def message_rules : List MessageRule :=
  [ { exchange_type := ExchangeType.IKE_SA_INIT, is_request := true
    , supported_payloads := supported_ike_sa_init_i_payloads }
  , { exchange_type := ExchangeType.IKE_SA_INIT, is_request := false
    , supported_payloads := supported_ike_sa_init_r_payloads } ]

/-- Linear scan over the rule table, as in get_supported_payloads. -/
def lookupRule : List MessageRule → ExchangeType → Bool → Status × List SupportedPayloadEntry
  | [], _, _ => (Status.NOT_FOUND, [])
  | r :: rest, ex, req =>
    if r.exchange_type = ex ∧ r.is_request = req then
      (Status.SUCCESS, r.supported_payloads)
    else
      lookupRule rest ex req

/-- get_supported_payloads of message.c: returns SUCCESS with the rule
    row for the given exchange type and direction, or NOT_FOUND with
    an empty set. -/
def get_supported_payloads (ex : ExchangeType) (req : Bool) :
    Status × List SupportedPayloadEntry :=
  lookupRule message_rules ex req

/-- private_message_t of message.c: the message state.  The parser
    field is represented by the token buffer it was bound to at
    construction plus its current position. -/
structure Message where
  major_version : Nat
  minor_version : Nat
  first_payload : PayloadType
  exchange_type : ExchangeType
  is_request : Bool
  message_id : Nat
  ike_sa_id : Option IkeSaId
  packet : Packet
  payloads : List Payload
  parser_data : List Token
  parser_pos : Nat
deriving DecidableEq

/-- message_create_from_packet of message.c: initial field values of a
    fresh message bound to a packet; the parser is created from the
    packet data. -/
def message_create_from_packet (packet : Packet) : Message :=
  { major_version := 0
    minor_version := 0
    first_payload := PayloadType.NO_PAYLOAD
    exchange_type := ExchangeType.EXCHANGE_TYPE_UNDEFINED
    is_request := true
    message_id := 0
    ike_sa_id := none
    packet := packet
    payloads := []
    parser_data := packet.data
    parser_pos := 0 }

/-- set_ike_sa_id of message.c: stores a clone of the given id. -/
def set_ike_sa_id (m : Message) (s : IkeSaId) : Status × Message :=
  (Status.SUCCESS, { m with ike_sa_id := some (ike_sa_id_clone s) })

/-- get_ike_sa_id of message.c: FAILED when no id is assigned,
    otherwise a clone of the stored id. -/
def get_ike_sa_id (m : Message) : Status × Message × Option IkeSaId :=
  match m.ike_sa_id with
  | none => (Status.FAILED, m, none)
  | some s => (Status.SUCCESS, m, some (ike_sa_id_clone s))

/-- Type of the first element of a payload chain, or the no-payload
    sentinel for an empty chain. -/
def firstType : List Payload → PayloadType
  | [] => PayloadType.NO_PAYLOAD
  | p :: _ => p.ptype

/-- Rewrite of the next-type links performed by the generate loop: each
    element points at the type of its successor, the last element at
    NO_PAYLOAD. -/
def relink : List Payload → List Payload
  | [] => []
  | p :: rest => { p with next_type := firstType rest } :: relink rest

/-- Update of the last element of the chain with a new next-type link,
    as performed by add_payload on a non-empty chain. -/
def set_last_next : List Payload → PayloadType → List Payload
  | [], _ => []
  | [q], t => [{ q with next_type := t }]
  | q :: r :: rest, t => q :: set_last_next (r :: rest) t

/-- add_payload of message.c: append the payload; on a previously empty
    chain record its type as first_payload, otherwise point the
    previous last element at it. -/
def add_payload (m : Message) (p : Payload) : Status × Message :=
  if m.payloads = [] then
    (Status.SUCCESS, { m with payloads := [p], first_payload := p.ptype })
  else
    (Status.SUCCESS, { m with payloads := set_last_next m.payloads p.ptype ++ [p] })

/-- Header payload as filled by generate: ike_header_create defaults
    (version 2.0, verifying) plus the set_ calls copying exchange
    type, message id, inverted direction and the ike-sa-id SPIs and
    initiator flag; its next-type link is set to the type of the first
    chain payload by the generate traversal (NO_PAYLOAD for an empty
    chain). -/
def genHeader (m : Message) (said : IkeSaId) : IkeHeader :=
  { initiator_spi := said.initiator_spi
    responder_spi := said.responder_spi
    next_type := firstType m.payloads
    maj_version := 2
    min_version := 0
    exchange_type := m.exchange_type
    response_flag := !m.is_request
    initiator_flag := said.is_initiator
    message_id := m.message_id
    verify_ok := true }

/-- Buffer written by generate: the serialized header followed by the
    relinked chain, one token per payload. -/
def genData (m : Message) (said : IkeSaId) : List Token :=
  Token.header (genHeader m said) :: (relink m.payloads).map Token.payload

/-- Packet produced by generate: the message packet with its data
    replaced by the generated buffer. -/
def genPacket (m : Message) (said : IkeSaId) : Packet :=
  { m.packet with data := genData m said }

/-- generate of message.c.  Returns none exactly when the C code would
    dereference a NULL ike_sa_id while filling the synthetic header;
    otherwise some (status, updated message, produced packet clone).
    The generator collaborator is modelled from the spec as a total
    token emitter. -/
def generate (m : Message) : Option (Status × Message × Option Packet) :=
  if m.exchange_type = ExchangeType.EXCHANGE_TYPE_UNDEFINED then
    some (Status.INVALID_STATE, m, none)
  else if m.packet.source = none ∨ m.packet.destination = none then
    some (Status.INVALID_STATE, m, none)
  else
    match m.ike_sa_id with
    | none => none
    | some said =>
      some (Status.SUCCESS,
        { m with packet := genPacket m said, payloads := relink m.payloads },
        some (genPacket m said))

/-- parse_header of message.c: reset the parser, parse and verify the
    header token, destroy any previously stored ike-sa-id, create a
    new one from the header SPIs and initiator flag, and record
    exchange type, message id, direction, versions and the first body
    payload type.  The alloc_ok argument models whether
    ike_sa_id_create succeeds: on its failure the source has already
    destroyed the previous id and the NULL result is assigned to the
    field before OUT_OF_RES is returned, so the id is lost. -/
def parse_header (m : Message) (alloc_ok : Bool) : Status × Message :=
  let m0 := { m with parser_pos := 0 }
  match m.parser_data[0]? with
  | none => (Status.PARSE_ERROR, m0)
  | some (Token.payload _) => (Status.PARSE_ERROR, m0)
  | some (Token.header h) =>
    if h.verify_ok = false then
      (Status.FAILED, m0)
    else if alloc_ok = false then
      (Status.OUT_OF_RES, { m0 with ike_sa_id := none })
    else
      (Status.SUCCESS,
        { m0 with
          ike_sa_id := some
            { initiator_spi := h.initiator_spi
              responder_spi := h.responder_spi
              is_initiator := h.initiator_flag }
          exchange_type := h.exchange_type
          message_id := h.message_id
          is_request := !h.response_flag
          major_version := h.maj_version
          minor_version := h.min_version
          first_payload := h.next_type
          parser_pos := 1 })

/-- Inner admissibility scan of the parse_body decode loop: is the
    current payload type among the rule entries. -/
def isSupported (rules : List SupportedPayloadEntry) (t : PayloadType) : Bool :=
  rules.any (fun e => e.payload_type = t)

/-- Decode loop of parse_body: follow the next-type links, rejecting
    unsupported types, decoding and verifying one payload per step.
    Returns the loop status, the decoded payloads in order, and the
    unconsumed tokens. -/
def parseLoop (rules : List SupportedPayloadEntry) :
    List Token → PayloadType → Status × List Payload × List Token
  | tokens, cur =>
    if cur = PayloadType.NO_PAYLOAD then
      (Status.SUCCESS, [], tokens)
    else if isSupported rules cur = false then
      (Status.NOT_SUPPORTED, [], tokens)
    else
      match tokens with
      | [] => (Status.PARSE_ERROR, [], [])
      | Token.header h :: rest => (Status.PARSE_ERROR, [], Token.header h :: rest)
      | Token.payload p :: rest =>
        if p.ptype ≠ cur then
          (Status.PARSE_ERROR, [], Token.payload p :: rest)
        else if p.verify_ok = false then
          (Status.VERIFY_ERROR, [], Token.payload p :: rest)
        else
          let r := parseLoop rules rest p.next_type
          (r.1, p :: r.2.1, r.2.2)

/-- Number of chain elements of the given payload type, as counted by
    the occurrence scan of parse_body. -/
def countType (pt : PayloadType) : List Payload → Nat
  | [] => 0
  | p :: rest => (if p.ptype = pt then 1 else 0) + countType pt rest

/-- Instrumented maximum-occurrence scan of parse_body for one rule
    entry: walking the chain with a running count, return the index of
    the element whose counting first drives the count above the
    maximum, or none when the scan completes. -/
def findExceed (pt : PayloadType) (maxOcc : Nat) : List Payload → Nat → Option Nat
  | [], _ => none
  | p :: rest, found =>
    if p.ptype = pt then
      if maxOcc < found + 1 then
        some 0
      else
        (findExceed pt maxOcc rest (found + 1)).map (fun k => k + 1)
    else
      (findExceed pt maxOcc rest found).map (fun k => k + 1)

/-- Failure report of the post-parse occurrence check: which rule entry
    detected the violation, and for a maximum violation at which chain
    position the count was exceeded. -/
inductive CheckFail where
  | maxExceeded (ruleIdx : Nat) (pos : Nat)
  | minMissed (ruleIdx : Nat)
deriving DecidableEq

/-- Post-parse occurrence check of parse_body: per rule entry in table
    order, scan the complete chain; fail at the element exceeding the
    maximum, or after the scan when the count misses the minimum. -/
def checkRules : List SupportedPayloadEntry → List Payload → Nat → Option CheckFail
  | [], _, _ => none
  | e :: rest, chain, idx =>
    match findExceed e.payload_type e.max_occurence chain 0 with
    | some pos => some (CheckFail.maxExceeded idx pos)
    | none =>
      if countType e.payload_type chain < e.min_occurence then
        some (CheckFail.minMissed idx)
      else
        checkRules rest chain (idx + 1)

/-- parse_body of message.c: rule lookup (FAILED when absent), decode
    loop from first_payload over the remaining tokens, append of the
    decoded payloads, then the occurrence check over the complete
    chain; any occurrence violation is NOT_SUPPORTED. -/
def parse_body (m : Message) : Status × Message :=
  let r := get_supported_payloads m.exchange_type m.is_request
  if r.1 ≠ Status.SUCCESS then
    (Status.FAILED, m)
  else
    let res := parseLoop r.2 (m.parser_data.drop m.parser_pos) m.first_payload
    let m2 : Message :=
      { m with
        payloads := m.payloads ++ res.2.1
        parser_pos := m.parser_data.length - res.2.2.length }
    if res.1 ≠ Status.SUCCESS then
      (res.1, m2)
    else
      match checkRules r.2 m2.payloads 0 with
      | none => (Status.SUCCESS, m2)
      | some _ => (Status.NOT_SUPPORTED, m2)

/-- All adjacent pairs of the chain are linked: each element's
    next-type equals the type of its successor. -/
def adjLinked : List Payload → Bool
  | p :: q :: rest => decide (p.next_type = q.ptype) && adjLinked (q :: rest)
  | _ => true

/-- Full chain-linkage invariant: adjacent pairs linked and the last
    element pointing at NO_PAYLOAD. -/
def chainLinked : List Payload → Bool
  | [] => true
  | [p] => decide (p.next_type = PayloadType.NO_PAYLOAD)
  | p :: q :: rest => decide (p.next_type = q.ptype) && chainLinked (q :: rest)

/-- Observable message state named by the header-parse failure
    contract: exchange type, message id, direction, versions,
    first-payload-type, ike-sa-id, payload chain and byte buffer. -/
structure Observable where
  exchange_type : ExchangeType
  message_id : Nat
  is_request : Bool
  major_version : Nat
  minor_version : Nat
  first_payload : PayloadType
  ike_sa_id : Option IkeSaId
  payloads : List Payload
  data : List Token
deriving DecidableEq

/-- Projection of a message onto its observable state. -/
def observable (m : Message) : Observable :=
  { exchange_type := m.exchange_type
    message_id := m.message_id
    is_request := m.is_request
    major_version := m.major_version
    minor_version := m.minor_version
    first_payload := m.first_payload
    ike_sa_id := m.ike_sa_id
    payloads := m.payloads
    data := m.packet.data }

/-- Sample security-association payload, linked at the key-exchange
    payload following it in the sample chain. -/
def saP : Payload :=
  { ptype := PayloadType.SECURITY_ASSOCIATION, next_type := PayloadType.KEY_EXCHANGE
    body := 10, verify_ok := true }

/-- Sample key-exchange payload, linked at the nonce following it. -/
def keP : Payload :=
  { ptype := PayloadType.KEY_EXCHANGE, next_type := PayloadType.NONCE
    body := 20, verify_ok := true }

/-- Sample nonce payload, last of the sample chain. -/
def nonceP : Payload :=
  { ptype := PayloadType.NONCE, next_type := PayloadType.NO_PAYLOAD
    body := 30, verify_ok := true }

/-- Second sample nonce payload with distinct body content. -/
def nonceP2 : Payload :=
  { ptype := PayloadType.NONCE, next_type := PayloadType.NO_PAYLOAD
    body := 31, verify_ok := true }

/-- Sample ike-sa-id. -/
def said0 : IkeSaId :=
  { initiator_spi := 11, responder_spi := 22, is_initiator := true }

/-- Packet with no addresses and no data. -/
def emptyPacket : Packet := { source := none, destination := none, data := [] }

/-- Outbound message ready for generation: IKE_SA_INIT request with
    addresses, ike-sa-id and a valid three-payload chain. -/
def goodMsg : Message :=
  { major_version := 2
    minor_version := 0
    first_payload := PayloadType.SECURITY_ASSOCIATION
    exchange_type := ExchangeType.IKE_SA_INIT
    is_request := true
    message_id := 7
    ike_sa_id := some said0
    packet := { source := some 1, destination := some 2, data := [] }
    payloads := [saP, keP, nonceP]
    parser_data := []
    parser_pos := 0 }

/-- Message state just after a successful header parse whose remaining
    body tokens serialize the given chain with consistent next-type
    links: used to state the body-parse claims. -/
def bodyMsg (ex : ExchangeType) (req : Bool) (chain : List Payload) : Message :=
  { major_version := 2
    minor_version := 0
    first_payload := firstType chain
    exchange_type := ex
    is_request := req
    message_id := 0
    ike_sa_id := none
    packet := { source := none, destination := none
                data := (relink chain).map Token.payload }
    payloads := []
    parser_data := (relink chain).map Token.payload
    parser_pos := 0 }

/-- Message with defined exchange type and addresses but no ike-sa-id. -/
def noSaidMsg : Message := { goodMsg with ike_sa_id := none }

/-- Body-parse state for an exchange type without a rule-table row,
    with one payload already present in the chain. -/
def preloadedAuthMsg : Message :=
  { bodyMsg ExchangeType.IKE_AUTH true [] with payloads := [saP] }

/-- Body-parse state with one payload already in the chain and tokens
    for the remaining two: exercises the combined occurrence count. -/
def preMsg : Message :=
  { bodyMsg ExchangeType.IKE_SA_INIT true [keP, nonceP] with payloads := [saP] }

/-- Message produced by a successful generate on goodMsg. -/
def goodGenMsg : Message :=
  { goodMsg with packet := genPacket goodMsg said0, payloads := relink goodMsg.payloads }

/-- Inbound message bound to a packet with a valid header token, with
    an ike-sa-id already stored: exercises the header-parse path that
    destroys the previous id before creating the new one. -/
def hdrMsg : Message :=
  { message_create_from_packet (genPacket goodMsg said0) with ike_sa_id := some said0 }

/-- Message state reached by a successful header parse of a freshly
    bound generated packet: header fields copied back, ike-sa-id
    rebuilt from the header SPIs and initiator flag, parser standing
    on the first body token. -/
def afterHeader (m : Message) (said : IkeSaId) : Message :=
  { major_version := 2
    minor_version := 0
    first_payload := firstType m.payloads
    exchange_type := m.exchange_type
    is_request := !(!m.is_request)
    message_id := m.message_id
    ike_sa_id := some said
    packet := genPacket m said
    payloads := []
    parser_data := genData m said
    parser_pos := 1 }

/-- C5: an undefined exchange type or a missing source or destination
    address makes generate fail with INVALID_STATE, returning the
    message unchanged, in particular with an untouched byte buffer and
    with no payload serialized. -/
theorem generate_invalid_state (m : Message)
    (h : m.exchange_type = ExchangeType.EXCHANGE_TYPE_UNDEFINED ∨
         m.packet.source = none ∨ m.packet.destination = none) :
    generate m = some (Status.INVALID_STATE, m, none) := by
  unfold generate
  by_cases hex : m.exchange_type = ExchangeType.EXCHANGE_TYPE_UNDEFINED
  · simp [hex]
  · rcases h with h | h | h
    · exact absurd h hex
    · simp [hex, h]
    · simp [hex, h]

/-- Witness for generate_invalid_state: the fresh message has an
    undefined exchange type, so generate fails with INVALID_STATE. -/
theorem generate_invalid_state_witness :
    generate (message_create_from_packet emptyPacket) =
      some (Status.INVALID_STATE, message_create_from_packet emptyPacket, none) :=
  generate_invalid_state (message_create_from_packet emptyPacket) (Or.inl rfl)

/-- C9: once the invalid-state checks pass (defined exchange type,
    both addresses present), generate reaches the unconditional
    ike-sa-id access of the header construction: it hits the null
    dereference, modelled as none, exactly when no ike-sa-id is
    assigned. -/
theorem generate_requires_ike_sa_id (m : Message)
    (hex : m.exchange_type ≠ ExchangeType.EXCHANGE_TYPE_UNDEFINED)
    (hs : m.packet.source ≠ none) (hd : m.packet.destination ≠ none) :
    generate m = none ↔ m.ike_sa_id = none := by
  unfold generate
  rw [if_neg hex, if_neg (by simp [hs, hd])]
  cases h : m.ike_sa_id <;> simp [h]

/-- Witness for generate_requires_ike_sa_id at a concrete message with
    addresses and exchange type set but no ike-sa-id. -/
theorem generate_requires_ike_sa_id_witness :
    generate noSaidMsg = none ↔ noSaidMsg.ike_sa_id = none :=
  generate_requires_ike_sa_id noSaidMsg (by decide) (by decide) (by decide)

/-- C7 counterexample: on a message holding an ike-sa-id, a header
    parse that fails with resource exhaustion while creating the new
    ike-sa-id (the source has already destroyed the stored one) does
    not leave the observable state identical: the ike-sa-id is gone. -/
theorem parse_header_failure_cex :
    (parse_header hdrMsg false).1 ≠ Status.SUCCESS ∧
      observable (parse_header hdrMsg false).2 ≠ observable hdrMsg := by
  decide

/-- C7 amended: when parse_header fails with a header decode failure
    or a header verification failure, the observable state of the
    message (exchange type, message id, direction, versions,
    first-payload-type, ike-sa-id, payload chain, byte buffer) is
    unchanged; when it fails with resource exhaustion while creating
    the ike-sa-id, every observable field except the ike-sa-id is
    unchanged, but a previously stored ike-sa-id has been destroyed
    and the field is left unset. -/
theorem parse_header_failure_state (m : Message) (alloc_ok : Bool)
    (h : (parse_header m alloc_ok).1 ≠ Status.SUCCESS) :
    ((parse_header m alloc_ok).1 ≠ Status.OUT_OF_RES →
      observable (parse_header m alloc_ok).2 = observable m) ∧
    ((parse_header m alloc_ok).1 = Status.OUT_OF_RES →
      observable (parse_header m alloc_ok).2 =
        { observable m with ike_sa_id := none }) := by
  rcases htok : m.parser_data[0]? with _ | tok
  · unfold parse_header
    rw [htok]
    exact ⟨fun _ => rfl, fun hoor => by simp at hoor⟩
  · cases tok with
    | payload p =>
      unfold parse_header
      rw [htok]
      exact ⟨fun _ => rfl, fun hoor => by simp at hoor⟩
    | header hh =>
      unfold parse_header at h ⊢
      rw [htok] at h ⊢
      by_cases hv : hh.verify_ok = false
      · simp only [hv, if_true, ite_true]
        exact ⟨fun _ => rfl, fun hoor => by simp at hoor⟩
      · by_cases ha : alloc_ok = false
        · simp only [hv, ha, if_false, ite_false, if_true, ite_true]
          refine ⟨fun hne => absurd rfl hne, fun _ => rfl⟩
        · simp [hv, ha] at h

/-- Witness for parse_header_failure_state on the resource-exhaustion
    branch: the previously stored ike-sa-id of hdrMsg is lost, all
    other observable fields survive. -/
theorem parse_header_failure_state_witness :
    observable (parse_header hdrMsg false).2 = { observable hdrMsg with ike_sa_id := none } :=
  (parse_header_failure_state hdrMsg false (by decide)).2 (by decide)

/-- C8 counterexample: on a message whose ike-sa-id was never set,
    get_ike_sa_id returns the generic FAILED status, which is not the
    not-found status the claim names. -/
theorem get_ike_sa_id_not_notfound_cex :
    (get_ike_sa_id (message_create_from_packet emptyPacket)).1 = Status.FAILED ∧
      Status.FAILED ≠ Status.NOT_FOUND := by
  decide

/-- C8 amended: with no ike-sa-id assigned, get_ike_sa_id fails with
    the generic FAILED status and leaves the message unchanged; with
    an ike-sa-id assigned it returns a clone, equal in value to the
    stored instance. -/
theorem get_ike_sa_id_spec (m : Message) :
    (m.ike_sa_id = none → get_ike_sa_id m = (Status.FAILED, m, none)) ∧
    (∀ s, m.ike_sa_id = some s →
      get_ike_sa_id m = (Status.SUCCESS, m, some (ike_sa_id_clone s)) ∧
        ike_sa_id_clone s = s) := by
  constructor
  · intro h
    unfold get_ike_sa_id
    rw [h]
  · intro s h
    unfold get_ike_sa_id
    rw [h]
    exact ⟨rfl, rfl⟩

/-- Witness for get_ike_sa_id_spec: on a message carrying said0 the
    call succeeds with a clone of equal value. -/
theorem get_ike_sa_id_spec_witness :
    get_ike_sa_id goodMsg = (Status.SUCCESS, goodMsg, some (ike_sa_id_clone said0)) ∧
      ike_sa_id_clone said0 = said0 :=
  (get_ike_sa_id_spec goodMsg).2 said0 rfl

/-- C2 counterexample: for a message whose exchange type has no rule
    row, parse_body returns the generic FAILED status, not the
    not-found status the claim names, and a pre-existing payload chain
    stays in place rather than being left empty. -/
theorem parse_body_no_rule_cex :
    (parse_body preloadedAuthMsg).1 = Status.FAILED ∧
      (parse_body preloadedAuthMsg).1 ≠ Status.NOT_FOUND ∧
      (parse_body preloadedAuthMsg).2.payloads ≠ [] := by
  decide

/-- C2 amended: for an exchange type with no rule-table row (any type
    other than IKE_SA_INIT), the rule lookup itself reports NOT_FOUND
    but parse_body fails with the generic FAILED status; it fails
    before examining any payload and returns the message unchanged, so
    a previously empty payload chain stays empty. -/
theorem parse_body_no_rule_failed (m : Message)
    (h : m.exchange_type ≠ ExchangeType.IKE_SA_INIT) :
    parse_body m = (Status.FAILED, m) ∧
      (get_supported_payloads m.exchange_type m.is_request).1 = Status.NOT_FOUND := by
  have h2 : ExchangeType.IKE_SA_INIT ≠ m.exchange_type := fun hh => h hh.symm
  have hr : get_supported_payloads m.exchange_type m.is_request = (Status.NOT_FOUND, []) := by
    simp [get_supported_payloads, message_rules, lookupRule, h2]
  constructor
  · unfold parse_body
    rw [hr]
    rfl
  · rw [hr]

/-- Witness for parse_body_no_rule_failed at the IKE_AUTH exchange. -/
theorem parse_body_no_rule_failed_witness :
    parse_body (bodyMsg ExchangeType.IKE_AUTH true []) =
      (Status.FAILED, bodyMsg ExchangeType.IKE_AUTH true []) ∧
      (get_supported_payloads (bodyMsg ExchangeType.IKE_AUTH true []).exchange_type
        (bodyMsg ExchangeType.IKE_AUTH true []).is_request).1 = Status.NOT_FOUND :=
  parse_body_no_rule_failed (bodyMsg ExchangeType.IKE_AUTH true []) (by decide)

/-- relink preserves the payload types in order. -/
theorem relink_map_ptype (c : List Payload) :
    (relink c).map Payload.ptype = c.map Payload.ptype := by
  induction c with
  | nil => rfl
  | cons p rest ih => simp [relink, ih]

/-- relink preserves the chain length. -/
theorem relink_length (c : List Payload) : (relink c).length = c.length := by
  induction c with
  | nil => rfl
  | cons p rest ih => simp [relink, ih]

/-- countType only looks at the payload types, so relink preserves
    it. -/
theorem countType_relink (pt : PayloadType) (c : List Payload) :
    countType pt (relink c) = countType pt c := by
  induction c with
  | nil => rfl
  | cons p rest ih => simp [relink, countType, ih]

/-- findExceed only looks at the payload types, so relink preserves
    it. -/
theorem findExceed_relink (pt : PayloadType) (maxOcc : Nat) (c : List Payload) :
    ∀ found, findExceed pt maxOcc (relink c) found = findExceed pt maxOcc c found := by
  induction c with
  | nil => intro found; rfl
  | cons p rest ih =>
    intro found
    simp only [relink, findExceed]
    by_cases hp : p.ptype = pt
    · simp [hp, ih]
    · simp [hp, ih]

/-- The occurrence check only looks at the payload types, so relink
    preserves it. -/
theorem checkRules_relink (rules : List SupportedPayloadEntry) (c : List Payload) :
    ∀ idx, checkRules rules (relink c) idx = checkRules rules c idx := by
  induction rules with
  | nil => intro idx; rfl
  | cons e rest ih =>
    intro idx
    simp only [checkRules, findExceed_relink, countType_relink, ih]

/-- A maximum-occurrence scan over a chain whose relevant count stays
    within the bound completes without detecting an excess. -/
theorem findExceed_none (pt : PayloadType) (maxOcc : Nat) :
    ∀ (c : List Payload) (found : Nat), found + countType pt c ≤ maxOcc →
      findExceed pt maxOcc c found = none := by
  intro c
  induction c with
  | nil => intro found _; rfl
  | cons p rest ih =>
    intro found h
    simp only [countType] at h
    unfold findExceed
    by_cases hp : p.ptype = pt
    · rw [if_pos hp] at h ⊢
      rw [if_neg (by omega)]
      rw [ih (found + 1) (by omega)]
      rfl
    · rw [if_neg hp] at h ⊢
      rw [ih found (by omega)]
      rfl

/-- When the running count must overflow the maximum, the scan stops
    exactly at the element whose counting first exceeds it: the prefix
    before that position holds exactly the remaining allowance and the
    element there is of the scanned type. -/
theorem findExceed_loc (pt : PayloadType) (maxOcc : Nat) :
    ∀ (c : List Payload) (found : Nat), found ≤ maxOcc →
      maxOcc < found + countType pt c →
      ∃ pos, findExceed pt maxOcc c found = some pos ∧
        countType pt (c.take pos) + found = maxOcc ∧
        ∃ q, c.get? pos = some q ∧ q.ptype = pt := by
  intro c
  induction c with
  | nil =>
    intro found h1 h2
    simp only [countType] at h2
    omega
  | cons p rest ih =>
    intro found h1 h2
    simp only [countType] at h2
    by_cases hp : p.ptype = pt
    · rw [if_pos hp] at h2
      by_cases hm : maxOcc < found + 1
      · refine ⟨0, ?_, ?_, p, by simp, hp⟩
        · unfold findExceed
          rw [if_pos hp, if_pos hm]
        · simp only [List.take_zero, countType]
          omega
      · obtain ⟨pos, he, hc, q, hq, hqt⟩ := ih (found + 1) (by omega) (by omega)
        refine ⟨pos + 1, ?_, ?_, q, ?_, hqt⟩
        · unfold findExceed
          rw [if_pos hp, if_neg hm, he]
          rfl
        · simp only [List.take_succ_cons, countType, if_pos hp]
          omega
        · simpa using hq
    · rw [if_neg hp] at h2
      obtain ⟨pos, he, hc, q, hq, hqt⟩ := ih found h1 (by omega)
      refine ⟨pos + 1, ?_, ?_, q, ?_, hqt⟩
      · unfold findExceed
        rw [if_neg hp, he]
        rfl
      · simp only [List.take_succ_cons, countType, if_neg hp]
        omega
      · simpa using hq

/-- A chain without elements of the given type counts zero of them. -/
theorem countType_eq_zero (pt : PayloadType) (c : List Payload)
    (h : ∀ p ∈ c, p.ptype ≠ pt) : countType pt c = 0 := by
  induction c with
  | nil => rfl
  | cons p rest ih =>
    simp only [countType]
    rw [if_neg (h p (by simp))]
    simpa using ih (fun q hq => h q (by simp [hq]))

/-- A chain containing an element of the given type counts at least
    one of them. -/
theorem countType_pos (pt : PayloadType) (c : List Payload) (p : Payload)
    (hp : p ∈ c) (ht : p.ptype = pt) : 1 ≤ countType pt c := by
  induction c with
  | nil => simp at hp
  | cons q rest ih =>
    simp only [countType]
    rcases List.mem_cons.mp hp with h | h
    · rw [h] at ht
      rw [if_pos ht]
      omega
    · have := ih h
      omega

/-- One successful step of the decode loop: a supported, verifying
    payload token at the current type is consumed and prepended to the
    recursive result at its next-type link. -/
theorem parseLoop_cons (rules : List SupportedPayloadEntry) (p : Payload)
    (toks : List Token)
    (hnp : p.ptype ≠ PayloadType.NO_PAYLOAD)
    (hsup : isSupported rules p.ptype = true)
    (hver : p.verify_ok = true) :
    parseLoop rules (Token.payload p :: toks) p.ptype =
      ((parseLoop rules toks p.next_type).1,
        p :: (parseLoop rules toks p.next_type).2.1,
        (parseLoop rules toks p.next_type).2.2) := by
  conv_lhs => unfold parseLoop
  rw [if_neg hnp, if_neg (by simp [hsup])]
  dsimp only
  rw [if_neg (not_not_intro rfl), if_neg (by simp [hver])]

/-- The decode loop consumes a token stream carrying a relinked chain
    of supported, verifying payloads completely and returns exactly
    that chain. -/
theorem parseLoop_relink (rules : List SupportedPayloadEntry) :
    ∀ (c : List Payload),
      (∀ p ∈ c, isSupported rules p.ptype = true ∧ p.verify_ok = true ∧
        p.ptype ≠ PayloadType.NO_PAYLOAD) →
      parseLoop rules ((relink c).map Token.payload) (firstType c) =
        (Status.SUCCESS, relink c, []) := by
  intro c
  induction c with
  | nil => intro _; rfl
  | cons p rest ih =>
    intro h
    obtain ⟨hsup, hver, hnp⟩ := h p (by simp)
    have ihr := ih (fun q hq => h q (List.mem_cons_of_mem _ hq))
    rw [show relink (p :: rest) = { p with next_type := firstType rest } :: relink rest from rfl]
    rw [List.map_cons]
    rw [show firstType (p :: rest) = ({ p with next_type := firstType rest } : Payload).ptype from rfl]
    rw [parseLoop_cons rules { p with next_type := firstType rest }
      ((relink rest).map Token.payload) hnp hsup hver]
    dsimp only
    rw [ihr]

/-- Evaluation of parse_body on a message whose remaining tokens carry
    a relinked chain of supported, verifying payloads: the loop
    completes, the decoded chain is appended to the existing one, the
    status is decided by the occurrence check over the combined chain,
    and the header fields are untouched. -/
theorem parse_body_eval (m : Message) (rules : List SupportedPayloadEntry)
    (chain : List Payload)
    (hg : get_supported_payloads m.exchange_type m.is_request = (Status.SUCCESS, rules))
    (htok : m.parser_data.drop m.parser_pos = (relink chain).map Token.payload)
    (hfp : m.first_payload = firstType chain)
    (hok : ∀ p ∈ chain, isSupported rules p.ptype = true ∧ p.verify_ok = true ∧
      p.ptype ≠ PayloadType.NO_PAYLOAD) :
    (parse_body m).1 = (match checkRules rules (m.payloads ++ relink chain) 0 with
       | none => Status.SUCCESS
       | some _ => Status.NOT_SUPPORTED) ∧
    ((parse_body m).2).payloads = m.payloads ++ relink chain ∧
    ((parse_body m).2).exchange_type = m.exchange_type ∧
    ((parse_body m).2).message_id = m.message_id ∧
    ((parse_body m).2).is_request = m.is_request ∧
    ((parse_body m).2).ike_sa_id = m.ike_sa_id := by
  have hloop := parseLoop_relink rules chain hok
  unfold parse_body
  rw [hg, htok, hfp]
  dsimp only
  rw [if_neg (not_not_intro rfl), hloop]
  dsimp only
  rw [if_neg (not_not_intro rfl)]
  cases hC : checkRules rules (m.payloads ++ relink chain) 0 with
  | none => simp [hC]
  | some e => simp [hC]

/-- C4: parsing an IKE_SA_INIT request body containing
    SECURITY_ASSOCIATION and NONCE payloads but no KEY_EXCHANGE fails
    with NOT_SUPPORTED: the KEY_EXCHANGE occurrence count is zero,
    below the rule minimum of one, and whenever the earlier
    SECURITY_ASSOCIATION rule is satisfied (count exactly one) the
    occurrence check reports precisely the missed KEY_EXCHANGE
    minimum at rule index 1. -/
theorem parse_body_missing_ke_not_supported (chain : List Payload)
    (hok : ∀ p ∈ chain, isSupported supported_ike_sa_init_i_payloads p.ptype = true ∧
      p.verify_ok = true ∧ p.ptype ≠ PayloadType.NO_PAYLOAD)
    (hsa : ∃ p ∈ chain, p.ptype = PayloadType.SECURITY_ASSOCIATION)
    (hnc : ∃ p ∈ chain, p.ptype = PayloadType.NONCE)
    (hke : ∀ p ∈ chain, p.ptype ≠ PayloadType.KEY_EXCHANGE) :
    (parse_body (bodyMsg ExchangeType.IKE_SA_INIT true chain)).1 = Status.NOT_SUPPORTED ∧
      countType PayloadType.KEY_EXCHANGE (relink chain) = 0 ∧
      (countType PayloadType.SECURITY_ASSOCIATION chain = 1 →
        checkRules supported_ike_sa_init_i_payloads (relink chain) 0 =
          some (CheckFail.minMissed 1)) := by
  have hke0 : countType PayloadType.KEY_EXCHANGE chain = 0 := countType_eq_zero _ _ hke
  have hker : countType PayloadType.KEY_EXCHANGE (relink chain) = 0 := by
    rw [countType_relink]
    exact hke0
  obtain ⟨hst, hpl, _, _, _, _⟩ := parse_body_eval (bodyMsg ExchangeType.IKE_SA_INIT true chain)
      supported_ike_sa_init_i_payloads chain rfl rfl rfl hok
  have hKEfind : findExceed PayloadType.KEY_EXCHANGE 1 (relink chain) 0 = none :=
    findExceed_none _ _ _ _ (by omega)
  have hsome : (checkRules supported_ike_sa_init_i_payloads (relink chain) 0).isSome := by
    cases hSA : findExceed PayloadType.SECURITY_ASSOCIATION 1 (relink chain) 0 with
    | some pos => simp [checkRules, supported_ike_sa_init_i_payloads, hSA]
    | none =>
      by_cases hlt : countType PayloadType.SECURITY_ASSOCIATION (relink chain) < 1
      · simp [checkRules, supported_ike_sa_init_i_payloads, hSA, hlt]
      · simp [checkRules, supported_ike_sa_init_i_payloads, hSA, hlt, hKEfind, hker]
  refine ⟨?_, hker, ?_⟩
  · rcases hS : checkRules supported_ike_sa_init_i_payloads (relink chain) 0 with _ | e
    · rw [hS] at hsome
      simp at hsome
    · rw [show (bodyMsg ExchangeType.IKE_SA_INIT true chain).payloads = [] from rfl,
        List.nil_append, hS] at hst
      simpa using hst
  · intro hsa1
    have hsar : countType PayloadType.SECURITY_ASSOCIATION (relink chain) = 1 := by
      rw [countType_relink]
      exact hsa1
    have hSAfind : findExceed PayloadType.SECURITY_ASSOCIATION 1 (relink chain) 0 = none :=
      findExceed_none _ _ _ _ (by omega)
    simp [checkRules, supported_ike_sa_init_i_payloads, hSAfind, hsar, hKEfind, hker]

/-- Witness for parse_body_missing_ke_not_supported with the chain of
    one SECURITY_ASSOCIATION and one NONCE payload. -/
theorem parse_body_missing_ke_not_supported_witness :
    (parse_body (bodyMsg ExchangeType.IKE_SA_INIT true [saP, nonceP])).1 =
        Status.NOT_SUPPORTED ∧
      countType PayloadType.KEY_EXCHANGE (relink [saP, nonceP]) = 0 ∧
      (countType PayloadType.SECURITY_ASSOCIATION [saP, nonceP] = 1 →
        checkRules supported_ike_sa_init_i_payloads (relink [saP, nonceP]) 0 =
          some (CheckFail.minMissed 1)) :=
  parse_body_missing_ke_not_supported [saP, nonceP]
    (by decide) (by decide) (by decide) (by decide)

/-- C3 counterexample: a decoded IKE_SA_INIT request chain of two
    NONCE payloads and nothing else also fails with NOT_SUPPORTED,
    but the failure is detected at the SECURITY_ASSOCIATION minimum
    (rule index 0, after a full scan counting zero), not when the
    second NONCE is counted. -/
theorem parse_body_double_nonce_cex :
    (parse_body (bodyMsg ExchangeType.IKE_SA_INIT true [nonceP, nonceP2])).1 =
        Status.NOT_SUPPORTED ∧
      checkRules supported_ike_sa_init_i_payloads (relink [nonceP, nonceP2]) 0 =
        some (CheckFail.minMissed 0) := by
  decide

/-- C3 amended: parsing an IKE_SA_INIT request body whose decoded
    chain holds exactly one SECURITY_ASSOCIATION, one KEY_EXCHANGE and
    two NONCE payloads decodes the complete chain (the decode loop
    accepts both NONCE payloads) and then fails with NOT_SUPPORTED,
    detected by the post-parse occurrence scan at the NONCE rule
    (index 2) exactly at the position of the second NONCE: one NONCE
    precedes that position and the element there is a NONCE. -/
theorem parse_body_double_nonce (chain : List Payload)
    (hok : ∀ p ∈ chain, isSupported supported_ike_sa_init_i_payloads p.ptype = true ∧
      p.verify_ok = true ∧ p.ptype ≠ PayloadType.NO_PAYLOAD)
    (hsa : countType PayloadType.SECURITY_ASSOCIATION chain = 1)
    (hke : countType PayloadType.KEY_EXCHANGE chain = 1)
    (hnc : countType PayloadType.NONCE chain = 2) :
    ((parse_body (bodyMsg ExchangeType.IKE_SA_INIT true chain)).2).payloads = relink chain ∧
    (parse_body (bodyMsg ExchangeType.IKE_SA_INIT true chain)).1 = Status.NOT_SUPPORTED ∧
    ∃ pos, checkRules supported_ike_sa_init_i_payloads (relink chain) 0 =
        some (CheckFail.maxExceeded 2 pos) ∧
      countType PayloadType.NONCE ((relink chain).take pos) = 1 ∧
      ∃ q, (relink chain).get? pos = some q ∧ q.ptype = PayloadType.NONCE := by
  obtain ⟨hst, hpl, _, _, _, _⟩ := parse_body_eval (bodyMsg ExchangeType.IKE_SA_INIT true chain)
      supported_ike_sa_init_i_payloads chain rfl rfl rfl hok
  have hsar : countType PayloadType.SECURITY_ASSOCIATION (relink chain) = 1 := by
    rw [countType_relink]
    exact hsa
  have hker : countType PayloadType.KEY_EXCHANGE (relink chain) = 1 := by
    rw [countType_relink]
    exact hke
  have hncr : countType PayloadType.NONCE (relink chain) = 2 := by
    rw [countType_relink]
    exact hnc
  have hSAfind : findExceed PayloadType.SECURITY_ASSOCIATION 1 (relink chain) 0 = none :=
    findExceed_none _ _ _ _ (by omega)
  have hKEfind : findExceed PayloadType.KEY_EXCHANGE 1 (relink chain) 0 = none :=
    findExceed_none _ _ _ _ (by omega)
  obtain ⟨pos, hfind, hcnt, q, hq, hqt⟩ :=
    findExceed_loc PayloadType.NONCE 1 (relink chain) 0 (by omega) (by omega)
  have hcheck : checkRules supported_ike_sa_init_i_payloads (relink chain) 0 =
      some (CheckFail.maxExceeded 2 pos) := by
    simp [checkRules, supported_ike_sa_init_i_payloads, hSAfind, hsar, hKEfind, hker, hfind]
  refine ⟨?_, ?_, pos, hcheck, by omega, q, hq, hqt⟩
  · rw [hpl]
    rfl
  · rw [show (bodyMsg ExchangeType.IKE_SA_INIT true chain).payloads = [] from rfl,
      List.nil_append, hcheck] at hst
    simpa using hst

/-- relink preserves the head type. -/
theorem firstType_relink (c : List Payload) : firstType (relink c) = firstType c := by
  cases c <;> rfl

/-- Chain linkage extends through a cons whose head points at the type
    of the tail head. -/
theorem chainLinked_cons (p : Payload) (c : List Payload)
    (hp : p.next_type = firstType c) (hc : chainLinked c = true) :
    chainLinked (p :: c) = true := by
  cases c with
  | nil =>
    simp only [chainLinked, decide_eq_true_eq]
    exact hp
  | cons q rest =>
    simp only [chainLinked, Bool.and_eq_true, decide_eq_true_eq]
    exact ⟨hp, hc⟩

/-- The generate traversal leaves a fully linked chain. -/
theorem chainLinked_relink (c : List Payload) : chainLinked (relink c) = true := by
  induction c with
  | nil => rfl
  | cons p rest ih =>
    have h := chainLinked_cons { p with next_type := firstType rest } (relink rest)
      (by simp [firstType_relink]) ih
    simpa [relink] using h

/-- Appending a payload via set_last_next preserves adjacent
    linkage. -/
theorem adjLinked_set_last (c : List Payload) (p : Payload) :
    adjLinked c = true → adjLinked (set_last_next c p.ptype ++ [p]) = true := by
  induction c with
  | nil => intro _; rfl
  | cons q rest ih =>
    cases rest with
    | nil =>
      intro _
      simp [set_last_next, adjLinked]
    | cons r rest2 =>
      intro h
      simp only [adjLinked, Bool.and_eq_true, decide_eq_true_eq] at h
      obtain ⟨h1, h2⟩ := h
      have ih2 := ih h2
      cases rest2 with
      | nil => simp [set_last_next, adjLinked, h1]
      | cons s rest3 =>
        simp only [set_last_next, List.cons_append] at ih2 ⊢
        simp only [adjLinked, Bool.and_eq_true, decide_eq_true_eq]
        exact ⟨h1, ih2⟩

/-- C6: after a successful generate the payload chain is fully linked
    (each next-type equals the successor type, the last one pointing
    at NO_PAYLOAD); add_payload keeps adjacent pairs linked, records
    the type of a first payload as first-payload-type, and otherwise
    points the previous last element at the new payload and leaves
    first-payload-type untouched. -/
theorem generate_chain_linked (m : Message) (mg : Message) (pk : Option Packet) (p : Payload) :
    (generate m = some (Status.SUCCESS, mg, pk) → chainLinked mg.payloads = true) ∧
    (adjLinked m.payloads = true → adjLinked ((add_payload m p).2).payloads = true) ∧
    ((add_payload m p).2).payloads =
      (if m.payloads = [] then [p] else set_last_next m.payloads p.ptype ++ [p]) ∧
    ((add_payload m p).2).first_payload =
      (if m.payloads = [] then p.ptype else m.first_payload) := by
  refine ⟨?_, ?_, ?_, ?_⟩
  · intro hg
    unfold generate at hg
    by_cases hex : m.exchange_type = ExchangeType.EXCHANGE_TYPE_UNDEFINED
    · rw [if_pos hex] at hg
      simp at hg
    · rw [if_neg hex] at hg
      by_cases hsd : m.packet.source = none ∨ m.packet.destination = none
      · rw [if_pos hsd] at hg
        simp at hg
      · rw [if_neg hsd] at hg
        cases hsk : m.ike_sa_id with
        | none =>
          rw [hsk] at hg
          simp at hg
        | some said =>
          rw [hsk] at hg
          simp only [Option.some.injEq, Prod.mk.injEq, true_and] at hg
          obtain ⟨hmg, -⟩ := hg
          rw [← hmg]
          exact chainLinked_relink m.payloads
  · intro h
    unfold add_payload
    by_cases hc : m.payloads = []
    · rw [if_pos hc]
      rfl
    · rw [if_neg hc]
      exact adjLinked_set_last m.payloads p h
  · unfold add_payload
    by_cases hc : m.payloads = []
    · rw [if_pos hc, if_pos hc]
    · rw [if_neg hc, if_neg hc]
  · unfold add_payload
    by_cases hc : m.payloads = []
    · rw [if_pos hc, if_pos hc]
    · rw [if_neg hc, if_neg hc]

/-- C10: parse_body never clears the chain: the resulting payload list
    is always the original list with the newly decoded payloads
    appended after it, and when the decode loop succeeds the status is
    decided by the occurrence check over the combined (pre-existing
    plus newly parsed) chain. -/
theorem parse_body_appends (m : Message) :
    (∃ ps, ((parse_body m).2).payloads = m.payloads ++ ps) ∧
    (∀ rules, get_supported_payloads m.exchange_type m.is_request = (Status.SUCCESS, rules) →
      (parseLoop rules (m.parser_data.drop m.parser_pos) m.first_payload).1 = Status.SUCCESS →
      (parse_body m).1 =
        (match checkRules rules
            (m.payloads ++
              (parseLoop rules (m.parser_data.drop m.parser_pos) m.first_payload).2.1) 0 with
         | none => Status.SUCCESS
         | some _ => Status.NOT_SUPPORTED)) := by
  constructor
  · unfold parse_body
    dsimp only
    split
    · exact ⟨[], by simp⟩
    · split
      · exact ⟨_, rfl⟩
      · split <;> exact ⟨_, rfl⟩
  · intro rules hg hloop
    unfold parse_body
    rw [hg]
    dsimp only
    rw [if_neg (not_not_intro rfl)]
    rw [if_neg (by simp [hloop])]
    cases hC : checkRules rules
        (m.payloads ++
          (parseLoop rules (m.parser_data.drop m.parser_pos) m.first_payload).2.1) 0 with
    | none => simp [hC]
    | some e => simp [hC]

/-- Witness for parse_body_appends on a message with a pre-existing
    payload: the new payloads land after it and the check runs over
    the combined chain. -/
theorem parse_body_appends_witness :
    (∃ ps, ((parse_body preMsg).2).payloads = preMsg.payloads ++ ps) ∧
    (parse_body preMsg).1 =
      (match checkRules supported_ike_sa_init_i_payloads
          (preMsg.payloads ++
            (parseLoop supported_ike_sa_init_i_payloads
              (preMsg.parser_data.drop preMsg.parser_pos) preMsg.first_payload).2.1) 0 with
       | none => Status.SUCCESS
       | some _ => Status.NOT_SUPPORTED) :=
  ⟨(parse_body_appends preMsg).1,
    (parse_body_appends preMsg).2 supported_ike_sa_init_i_payloads (by decide) (by decide)⟩

/-- Witness for generate_chain_linked: the concrete generate result on
    goodMsg is fully linked, and add_payload of a further nonce keeps
    the adjacent linkage of the non-empty chain. -/
theorem generate_chain_linked_witness :
    chainLinked goodGenMsg.payloads = true ∧
    adjLinked ((add_payload goodMsg nonceP2).2).payloads = true ∧
    ((add_payload goodMsg nonceP2).2).payloads =
      (if goodMsg.payloads = [] then [nonceP2]
       else set_last_next goodMsg.payloads nonceP2.ptype ++ [nonceP2]) ∧
    ((add_payload goodMsg nonceP2).2).first_payload =
      (if goodMsg.payloads = [] then nonceP2.ptype else goodMsg.first_payload) := by
  obtain ⟨h1, h2, h3, h4⟩ :=
    generate_chain_linked goodMsg goodGenMsg (some (genPacket goodMsg said0)) nonceP2
  exact ⟨h1 (by decide), h2 (by decide), h3, h4⟩

/-- Witness for parse_body_double_nonce with the chain SA, KE, NONCE,
    NONCE. -/
theorem parse_body_double_nonce_witness :
    ((parse_body (bodyMsg ExchangeType.IKE_SA_INIT true [saP, keP, nonceP, nonceP2])).2).payloads =
        relink [saP, keP, nonceP, nonceP2] ∧
    (parse_body (bodyMsg ExchangeType.IKE_SA_INIT true [saP, keP, nonceP, nonceP2])).1 =
        Status.NOT_SUPPORTED ∧
    ∃ pos, checkRules supported_ike_sa_init_i_payloads (relink [saP, keP, nonceP, nonceP2]) 0 =
        some (CheckFail.maxExceeded 2 pos) ∧
      countType PayloadType.NONCE ((relink [saP, keP, nonceP, nonceP2]).take pos) = 1 ∧
      ∃ q, (relink [saP, keP, nonceP, nonceP2]).get? pos = some q ∧
        q.ptype = PayloadType.NONCE :=
  parse_body_double_nonce [saP, keP, nonceP, nonceP2]
    (by decide) (by decide) (by decide) (by decide)

/-- C1: round trip.  A message with a defined exchange type, both
    addresses, an ike-sa-id, and a chain of payloads valid for its
    exchange type and direction (a rule row exists, every payload is
    of a supported type, verifies, and the occurrence bounds hold)
    generates a packet which, bound to a fresh message, passes
    parse_header and parse_body and reproduces the same number of
    payload types in the same order, the same exchange type, message
    id, direction flag, and the same ike-sa-id SPIs and initiator
    flag. -/
theorem generate_parse_roundtrip (m : Message) (said : IkeSaId)
    (hex : m.exchange_type ≠ ExchangeType.EXCHANGE_TYPE_UNDEFINED)
    (hs : m.packet.source ≠ none)
    (hd : m.packet.destination ≠ none)
    (hsaid : m.ike_sa_id = some said)
    (hrule : (get_supported_payloads m.exchange_type m.is_request).1 = Status.SUCCESS)
    (hval : ∀ p ∈ m.payloads,
      isSupported (get_supported_payloads m.exchange_type m.is_request).2 p.ptype = true ∧
      p.verify_ok = true ∧ p.ptype ≠ PayloadType.NO_PAYLOAD)
    (hchk : checkRules (get_supported_payloads m.exchange_type m.is_request).2
      m.payloads 0 = none) :
    ∃ mg pkt,
      generate m = some (Status.SUCCESS, mg, some pkt) ∧
      (parse_header (message_create_from_packet pkt) true).1 = Status.SUCCESS ∧
      (parse_body ((parse_header (message_create_from_packet pkt) true).2)).1 = Status.SUCCESS ∧
      ((parse_body ((parse_header (message_create_from_packet pkt) true).2)).2).payloads.map
          Payload.ptype = m.payloads.map Payload.ptype ∧
      ((parse_body ((parse_header (message_create_from_packet pkt) true).2)).2).payloads.length =
        m.payloads.length ∧
      ((parse_body ((parse_header (message_create_from_packet pkt) true).2)).2).exchange_type =
        m.exchange_type ∧
      ((parse_body ((parse_header (message_create_from_packet pkt) true).2)).2).message_id =
        m.message_id ∧
      ((parse_body ((parse_header (message_create_from_packet pkt) true).2)).2).is_request =
        m.is_request ∧
      ((parse_body ((parse_header (message_create_from_packet pkt) true).2)).2).ike_sa_id =
        some said := by
  have hgen : generate m = some (Status.SUCCESS,
      { m with packet := genPacket m said, payloads := relink m.payloads },
      some (genPacket m said)) := by
    unfold generate
    rw [if_neg hex, if_neg (by simp [hs, hd]), hsaid]
  have hph : parse_header (message_create_from_packet (genPacket m said)) true =
      (Status.SUCCESS, afterHeader m said) := by
    simp [parse_header, message_create_from_packet, genPacket, genData, genHeader, afterHeader]
  have e2 : (afterHeader m said).is_request = m.is_request := by
    simp [afterHeader]
  have hgp : get_supported_payloads m.exchange_type m.is_request =
      (Status.SUCCESS, (get_supported_payloads m.exchange_type m.is_request).2) := by
    rw [← hrule]
  have hg2 : get_supported_payloads (afterHeader m said).exchange_type
      (afterHeader m said).is_request =
      (Status.SUCCESS, (get_supported_payloads m.exchange_type m.is_request).2) := by
    rw [show (afterHeader m said).exchange_type = m.exchange_type from rfl, e2]
    exact hgp
  obtain ⟨hst, hpl, hx2, hmid, hreq, hsid⟩ :=
    parse_body_eval (afterHeader m said) (get_supported_payloads m.exchange_type m.is_request).2
      m.payloads hg2 rfl rfl hval
  have hc : checkRules (get_supported_payloads m.exchange_type m.is_request).2
      ((afterHeader m said).payloads ++ relink m.payloads) 0 = none := by
    rw [show (afterHeader m said).payloads = ([] : List Payload) from rfl,
      List.nil_append, checkRules_relink]
    exact hchk
  rw [hc] at hst
  refine ⟨_, genPacket m said, hgen, ?_, ?_, ?_, ?_, ?_, ?_, ?_, ?_⟩
  · rw [hph]
  · rw [hph]
    dsimp only
    rw [hst]
  · rw [hph]
    dsimp only
    rw [hpl, show (afterHeader m said).payloads = ([] : List Payload) from rfl,
      List.nil_append, relink_map_ptype]
  · rw [hph]
    dsimp only
    rw [hpl, show (afterHeader m said).payloads = ([] : List Payload) from rfl,
      List.nil_append, relink_length]
  · rw [hph]
    dsimp only
    rw [hx2]
    rfl
  · rw [hph]
    dsimp only
    rw [hmid]
    rfl
  · rw [hph]
    dsimp only
    rw [hreq, e2]
  · rw [hph]
    dsimp only
    rw [hsid]
    rfl

/-- Witness for generate_parse_roundtrip on goodMsg: an IKE_SA_INIT
    request carrying one SECURITY_ASSOCIATION, one KEY_EXCHANGE and
    one NONCE payload round-trips. -/
theorem generate_parse_roundtrip_witness :
    ∃ mg pkt,
      generate goodMsg = some (Status.SUCCESS, mg, some pkt) ∧
      (parse_header (message_create_from_packet pkt) true).1 = Status.SUCCESS ∧
      (parse_body ((parse_header (message_create_from_packet pkt) true).2)).1 = Status.SUCCESS ∧
      ((parse_body ((parse_header (message_create_from_packet pkt) true).2)).2).payloads.map
          Payload.ptype = goodMsg.payloads.map Payload.ptype ∧
      ((parse_body ((parse_header (message_create_from_packet pkt) true).2)).2).payloads.length =
        goodMsg.payloads.length ∧
      ((parse_body ((parse_header (message_create_from_packet pkt) true).2)).2).exchange_type =
        goodMsg.exchange_type ∧
      ((parse_body ((parse_header (message_create_from_packet pkt) true).2)).2).message_id =
        goodMsg.message_id ∧
      ((parse_body ((parse_header (message_create_from_packet pkt) true).2)).2).is_request =
        goodMsg.is_request ∧
      ((parse_body ((parse_header (message_create_from_packet pkt) true).2)).2).ike_sa_id =
        some said0 :=
  generate_parse_roundtrip goodMsg said0 (by decide) (by decide) (by decide) rfl
    (by decide) (by decide) (by decide)

end Charon
